import Mathlib

/-
Verification development for the potpaiAI pull-request review service.

The embedded code:
- app/ai_reviewer.py   : AICodeReviewer.analyze_code, AICodeReviewer.review_pr_files
- app/tasks.py         : the celery task analyze_github_pr (the pipeline)
- app/github_service.py: GitHubService.get_file_content failure behaviour (re-raise)
- app/models.py        : the persisted columns of CodeReviewTask
- app/main.py          : the POST /analyze-pr submission endpoint

External effects (the GitHub API, the OpenAI API, the database session) are
modelled as oracles passed in explicitly; exceptions become Except values.
-/

namespace PotpaiAI

/-- One issue of an analysis result, with the fields of the JSON schema the
prompt requests (ai_reviewer.py lines 68-78): type, line, description,
suggestion. The spec calls the type field the category. -/
structure Issue where
  type : String
  line : Nat
  description : String
  suggestion : String
deriving Repr, DecidableEq

/-- One changed file of a pull request as returned by the GitHub files
endpoint. The pipeline reads filename (tasks.py line 54), and
review_pr_files reads patch and raw (ai_reviewer.py lines 101, 107); Python
reads them with get and an empty-string default, so an absent key is the
empty string here. -/
structure PRFile where
  filename : String
  patch : String
  raw : String
deriving Repr, DecidableEq

/-- Text returned by one chat-completions call, classified by how it
parses (after the brace-extraction attempt of ai_reviewer.py lines
40-45): it is not valid JSON at all, so json.loads raises JSONDecodeError;
or it is valid JSON but not an object (a bare number, an array, ...); or
it parses to an object whose issues entry is the given list. An object
without an issues key behaves as the empty list downstream, since the
caller extracts it with get and a default (line 111). -/
inductive LLMText
  | unparseable
  | parsedNonObject
  | parsedIssues (issues : List Issue)
deriving Repr, DecidableEq

/-- Outcome of one analysis-provider call inside analyze_code: the call
raises (network, auth, rate limit), or it returns text. -/
inductive LLMResponse
  | apiError (msg : String)
  | output (text : LLMText)
deriving Repr, DecidableEq

/-- Value returned by analyze_code: a JSON object, reduced to the issues
list that the caller extracts from it with get (ai_reviewer.py line 111),
or a non-object JSON value, on which that extraction raises
AttributeError in the caller. -/
inductive ParsedReview
  | nonObject
  | obj (issues : List Issue)
deriving Repr, DecidableEq

/-- AICodeReviewer.analyze_code (ai_reviewer.py lines 17-53). A
JSONDecodeError is caught and the literal object with an empty issues list
is returned (lines 48-50); a successful json.loads result is returned as
is, object or not (line 47); every other exception is re-raised (lines
51-53). -/
def analyze_code : LLMResponse → Except String ParsedReview
  | .apiError m => .error m
  | .output .unparseable => .ok (.obj [])
  | .output .parsedNonObject => .ok .nonObject
  | .output (.parsedIssues is) => .ok (.obj is)

/-- Failure of one file analysis in the sense of spec 4.4 step 5 and spec
6: a provider error, or output that fails to parse as the expected
structure — either not valid JSON, or JSON that is not the expected
object. -/
def isAnalysisFailure : LLMResponse → Bool
  | .apiError _ => true
  | .output .unparseable => true
  | .output .parsedNonObject => true
  | .output (.parsedIssues _) => false

/-- Character-list prefix test, structurally recursive so that concrete
runs reduce inside the kernel. -/
def leadsWith : List Char → List Char → Bool
  | [], _ => true
  | _ :: _, [] => false
  | p :: ps, c :: cs => p == c && leadsWith ps cs

/-- Python str.endswith for a single suffix, on the underlying character
lists. -/
def endsWithSuffix (s suf : String) : Bool :=
  leadsWith suf.data.reverse s.data.reverse

/-- Non-code suffix test of review_pr_files (ai_reviewer.py line 97). -/
def isNonCodeSuffix (name : String) : Bool :=
  endsWithSuffix name ".md" || endsWithSuffix name ".txt" || endsWithSuffix name ".json" ||
  endsWithSuffix name ".yaml" || endsWithSuffix name ".yml"

/-- One entry of per_file_reviews (ai_reviewer.py lines 113-116). -/
structure FileReview where
  name : String
  issues : List Issue
deriving Repr, DecidableEq

/-- Summary block of a Review Result (ai_reviewer.py lines 129-133). The
spec names total_issues the issue count and critical_issues the bug
count. -/
structure Summary where
  total_files : Nat
  total_issues : Nat
  critical_issues : Nat
deriving Repr, DecidableEq

/-- A Review Result: per-file reviews plus the recomputed summary
(ai_reviewer.py lines 127-134). -/
structure ReviewResult where
  files : List FileReview
  summary : Summary
deriving Repr, DecidableEq

/-- Loop of AICodeReviewer.review_pr_files (ai_reviewer.py lines 96-125),
accumulating the appended file reviews, total_issues and critical_issues.
A file with a non-code suffix is skipped (lines 97-98), a file with an
empty patch is skipped (lines 101-103), and an exception inside the try
block is absorbed and that file omitted (lines 123-125) — that covers
both an error re-raised by analyze_code and the AttributeError raised at
line 111 when analyze_code returned a non-object JSON value. -/
def reviewLoop (an : PRFile → LLMResponse) : List PRFile → List FileReview × Nat × Nat
  | [] => ([], 0, 0)
  | f :: rest =>
    if isNonCodeSuffix f.filename then reviewLoop an rest
    else if f.patch = "" then reviewLoop an rest
    else
      match analyze_code (an f) with
      | .error _ => reviewLoop an rest
      | .ok .nonObject => reviewLoop an rest
      | .ok (.obj issues) =>
        let r := reviewLoop an rest
        (⟨f.filename, issues⟩ :: r.1,
         issues.length + r.2.1,
         (issues.filter (fun i => i.type == "bug")).length + r.2.2)

/-- AICodeReviewer.review_pr_files (ai_reviewer.py lines 90-134): runs the
loop and assembles the result with the counted summary. -/
def review_pr_files (files : List PRFile) (an : PRFile → LLMResponse) : ReviewResult :=
  let r := reviewLoop an files
  ⟨r.1, ⟨r.1.length, r.2.1, r.2.2⟩⟩

/-- Persisted columns of the code_review_tasks table (models.py lines
15-25): task_id, repo_url, pr_number, status (stored as one of pending,
processing, completed, failed), the nullable result text column (the
comment on it says it stores the JSON result) and the nullable
error_message text column. The timestamp columns are outside this model;
no claim reads them. -/
structure CodeReviewTask where
  task_id : String
  repo_url : String
  pr_number : String
  status : String
  result : Option String
  error_message : Option String
deriving Repr, DecidableEq

/-- Modelled from the spec: AICodeReviewer._is_code_file is called from
tasks.py line 55 but is absent from src/ (ai_reviewer.py defines no such
method). Spec 4.4 step 3 prescribes skipping files whose name matches the
fixed set of non-code suffixes (documentation, structured-data and config
formats); the concrete set is the one the repository uses in
review_pr_files (ai_reviewer.py line 97). -/
def _is_code_file (name : String) : Bool :=
  !(isNonCodeSuffix name)

/-- Content loop of analyze_github_pr (tasks.py lines 52-58) over an
already sliced list. For a file passing the code-file test the content is
fetched; GitHubService.get_file_content re-raises any error
(github_service.py lines 66-68) and tasks.py has no per-file handler, so a
fetch error aborts the whole loop. Fetched empty content is skipped by the
truthiness test of tasks.py line 57. The fetch oracle is keyed by the file
name (tasks.py passes the pull-head path as the file_path argument and the
file name as the ref argument of get_file_content; both determine the one
request made for that file). Python stores the pairs in an
insertion-ordered dict, modelled as the ordered association list. -/
def fetchLoop (fetch : String → Except String String) :
    List PRFile → Except String (List (String × String))
  | [] => .ok []
  | f :: rest =>
    if _is_code_file f.filename then
      match fetch f.filename with
      | .error m => .error m
      | .ok content =>
        if content = "" then fetchLoop fetch rest
        else (fetchLoop fetch rest).map (fun cs => (f.filename, content) :: cs)
    else fetchLoop fetch rest

/-- Fetch step of analyze_github_pr (tasks.py lines 51-58): only the first
10 entries of the changed-file list are visited. -/
def fetchContents (prf : List PRFile) (fetch : String → Except String String) :
    Except String (List (String × String)) :=
  fetchLoop fetch (prf.take 10)

/-- Names for which a content fetch is attempted: the first 10 changed
files, restricted to code files, in list order. -/
def filesToFetch (prf : List PRFile) : List String :=
  ((prf.take 10).map (fun f => f.filename)).filter _is_code_file

/-- Reference fetch loop over bare names, used to state that the filter is
applied before any content retrieval: the fetch step only ever consults
the oracle on the filtered name list. -/
def fetchByName (fetch : String → Except String String) :
    List String → Except String (List (String × String))
  | [] => .ok []
  | n :: rest =>
    match fetch n with
    | .error m => .error m
    | .ok content =>
      if content = "" then fetchByName fetch rest
      else (fetchByName fetch rest).map (fun cs => (n, content) :: cs)

/-- Modelled from the spec: loop of the analysis step (spec 4.4 step 5)
over the fetched contents. Each entry is analyzed through the adapter; a
single file analysis failure — a provider error, or output failing to
parse as the expected structure; both are treated identically per spec
6 — is non-fatal and omits that file; the per-file reviews and the two
counters accumulate in fetch order. -/
def analyzeLoop (an : String → String → LLMResponse) :
    List (String × String) → List FileReview × Nat × Nat
  | [] => ([], 0, 0)
  | (name, content) :: rest =>
    match an name content with
    | .apiError _ => analyzeLoop an rest
    | .output .unparseable => analyzeLoop an rest
    | .output .parsedNonObject => analyzeLoop an rest
    | .output (.parsedIssues issues) =>
      let r := analyzeLoop an rest
      (⟨name, issues⟩ :: r.1,
       issues.length + r.2.1,
       (issues.filter (fun i => i.type == "bug")).length + r.2.2)

/-- Modelled from the spec: the aggregation of step 6 — per-file reviews
in fetch order, with the summary recomputed from them by counting. -/
def aggregate_reviews (conts : List (String × String))
    (an : String → String → LLMResponse) : ReviewResult :=
  let r := analyzeLoop an conts
  ⟨r.1, ⟨r.1.length, r.2.1, r.2.2⟩⟩

/-- Modelled from the spec: AICodeReviewer.analyze_pr is called from
tasks.py line 67 but is absent from src/. Per spec 4.4 step 5 it analyzes
each successfully fetched file via the analysis adapter; per-file
failures are non-fatal and omitted, unless every file fails, in which
case the pipeline raises an aggregate NoFilesAnalyzed-class detail and
the job is marked failed (spec 4.4 step 5 and the AnalysisUnavailable
entry of spec 7). An empty fetched set is not escalated: completing with
zero analyzed files is a valid terminal state distinct from all-failed
(spec 7). On success the step-6 aggregation is returned. -/
def analyze_pr (conts : List (String × String)) (an : String → String → LLMResponse) :
    Except String ReviewResult :=
  let r := analyzeLoop an conts
  if !conts.isEmpty && r.1.isEmpty then
    .error "NoFilesAnalyzed: analysis failed for every file"
  else .ok (aggregate_reviews conts an)

/-- Environment of one pipeline run: the outcome of get_pr_files, the
content-fetch oracle, the analysis oracle and the configured OpenAI key.
Modelled from the spec where needed: the settings object imported by
tasks.py is absent from src/ (config.py holds plain module-level values),
so the key is carried here as the value of OPENAI_API_KEY, which config.py
defaults to the empty string when unset. -/
structure PipelineEnv where
  openai_api_key : String
  pr_files : Except String (List PRFile)
  fetch : String → Except String String
  llm : String → String → LLMResponse

/-- Terminal failed write of analyze_github_pr (tasks.py lines 79-86):
when the record exists its status becomes failed and error_message gets
the exception text; the result column is untouched, and the error is
re-raised (returned as the task outcome). -/
def markFailed (db : Option CodeReviewTask) (m : String) :
    Option CodeReviewTask × Except String ReviewResult :=
  (db.map (fun t => {t with status := "failed", error_message := some m}), .error m)

/-- Steps of analyze_github_pr after the processing write (tasks.py lines
42-77): surface a get_pr_files error, raise on an empty file list (lines
48-49), fetch contents (lines 51-58), raise when no OpenAI key is
configured (lines 63-64), then run the analysis step; an error it raises
(the all-failed escalation) marks the job failed, and otherwise the
terminal completed state is written. On completion only the status column
changes: tasks.py line 73 assigns the JSON text to the attribute named
results, which is not a mapped column of CodeReviewTask (the declared
column is result, models.py line 22), so the assignment persists
nothing. -/
def runFetched (env : PipelineEnv) (db : Option CodeReviewTask) :
    Option CodeReviewTask × Except String ReviewResult :=
  match env.pr_files with
  | .error m => markFailed db m
  | .ok prf =>
    if prf.isEmpty then markFailed db "No files found in PR"
    else
      match fetchContents prf env.fetch with
      | .error m => markFailed db m
      | .ok conts =>
        if env.openai_api_key = "" then markFailed db "OPENAI_API_KEY not configured"
        else
          match analyze_pr conts env.llm with
          | .error m => markFailed db m
          | .ok results =>
            (db.map (fun t => {t with status := "completed"}), .ok results)

/-- Celery task analyze_github_pr (tasks.py lines 27-89). The record, when
present, is first set to processing unconditionally (lines 37-40; there is
no check of the prior status, terminal or not), then the
fetch-filter-analyze steps run and the terminal write happens. Returns the
record columns after the run together with the task outcome. -/
def analyze_github_pr (env : PipelineEnv) (db : Option CodeReviewTask) :
    Option CodeReviewTask × Except String ReviewResult :=
  runFetched env (db.map (fun t => {t with status := "processing"}))

/-- An HTTP error response: status code and detail, as carried by a
fastapi HTTPException. -/
structure HTTPError where
  status_code : Nat
  detail : String
deriving Repr, DecidableEq

/-- String rendering of an HTTPException as used by str(e) in the handler
of main.py line 118: the status code, a colon and the detail. -/
def strOfHTTPError (e : HTTPError) : String :=
  toString e.status_code ++ ": " ++ e.detail

/-- Character-list substring occurrence: the pattern occurs at some
position of the list. -/
def hasSubChars (pat : List Char) : List Char → Bool
  | [] => pat.isEmpty
  | c :: rest => leadsWith pat (c :: rest) || hasSubChars pat rest

/-- Python substring containment (the in operator on strings), on the
underlying character lists. -/
def containsSub (s needle : String) : Bool :=
  hasSubChars needle.data s.data

/-- Body of the try block of POST /analyze-pr (main.py lines 85-114): a
repo URL without the github.com substring raises HTTPException 400 before
any record is added (lines 87-88); otherwise a pending record is appended
and its id returned. The fresh task id is a parameter here; id generation
is outside this model. -/
def analyze_pr_try (repo_url pr_number new_id : String) (db : List CodeReviewTask) :
    Except HTTPError (List CodeReviewTask × String) :=
  if containsSub repo_url "github.com" = false then
    .error ⟨400, "Invalid GitHub repository URL"⟩
  else
    .ok (db ++ [⟨new_id, repo_url, pr_number, "pending", none, none⟩], new_id)

/-- POST /analyze-pr (main.py lines 73-118). The except clause catches
every Exception — the HTTPException raised by URL validation included,
since HTTPException derives from Exception — and re-raises
HTTPException(500, str(e)) (lines 116-118). Returns the response outcome
together with the record list after the call. -/
def analyze_pr_endpoint (repo_url pr_number new_id : String) (db : List CodeReviewTask) :
    Except HTTPError String × List CodeReviewTask :=
  match analyze_pr_try repo_url pr_number new_id db with
  | .ok (db2, tid) => (.ok tid, db2)
  | .error e => (.error ⟨500, strOfHTTPError e⟩, db)

/-- A fresh pending job record, as the Dispatcher creates it. -/
def samplePending : CodeReviewTask :=
  ⟨"t1", "https://github.com/o/r", "1", "pending", none, none⟩

/-- Environment with an empty changed-file list. -/
def envEmptyList : PipelineEnv :=
  ⟨"k", .ok [], fun _ => .ok "", fun _ _ => .output (.parsedIssues [])⟩

/-- Two code files whose fetch succeeds but whose analysis raises on every
call. -/
def envAllAnalysisFail : PipelineEnv :=
  ⟨"k", .ok [⟨"a.py", "", ""⟩, ⟨"b.py", "", ""⟩],
   fun _ => .ok "x", fun _ _ => .apiError "boom"⟩

/-- Three code files where only the fetch of the second raises. -/
def envFetchFail : PipelineEnv :=
  ⟨"k", .ok [⟨"a.py", "", ""⟩, ⟨"b.py", "", ""⟩, ⟨"c.py", "", ""⟩],
   fun n => if n = "b.py" then .error "boom" else .ok "x",
   fun _ _ => .output (.parsedIssues [])⟩

/-- One code file, fetched successfully, whose analysis parses to a single
bug issue: a run that completes. -/
def envOneIssue : PipelineEnv :=
  ⟨"k", .ok [⟨"a.py", "", ""⟩], fun _ => .ok "code",
   fun _ _ => .output (.parsedIssues [⟨"bug", 3, "d", "s"⟩])⟩

/-- Environment where the changed-file listing itself raises. -/
def envListError : PipelineEnv :=
  ⟨"k", .error "rate limited", fun _ => .ok "", fun _ _ => .output (.parsedIssues [])⟩

/-- A job record already in the completed terminal state. -/
def completedTask : CodeReviewTask :=
  ⟨"t2", "https://github.com/o/r", "2", "completed", none, none⟩

/-- Eleven changed code files, for the first-ten slicing claim. -/
def elevenFiles : List PRFile :=
  List.replicate 11 ⟨"a.py", "", ""⟩

/-- Environment holding the eleven-file list. -/
def envEleven : PipelineEnv :=
  ⟨"k", .ok elevenFiles, fun _ => .ok "c", fun _ _ => .output (.parsedIssues [])⟩

/-- Environment identical to envEleven except that the list is cut to its
first ten entries. -/
def envElevenTaken : PipelineEnv :=
  ⟨"k", .ok (elevenFiles.take 10), fun _ => .ok "c", fun _ _ => .output (.parsedIssues [])⟩

/-- A code file with a nonempty patch, for the parse-failure claim. -/
def sampleCodeFile : PRFile := ⟨"a.py", "+1", "raw"⟩

theorem fetchLoop_eq_fetchByName (fetch : String → Except String String) (l : List PRFile) :
    fetchLoop fetch l = fetchByName fetch ((l.map (fun f => f.filename)).filter _is_code_file) := by
  induction l with
  | nil => rfl
  | cons f rest ih =>
    by_cases h : _is_code_file f.filename
    · cases hf : fetch f.filename with
      | error m => simp [fetchLoop, fetchByName, h, hf]
      | ok c =>
        by_cases hc : c = "" <;> simp [fetchLoop, fetchByName, h, hf, hc, ih]
    · simp [fetchLoop, fetchByName, h, ih]

theorem analyzeLoop_all_fail (an : String → String → LLMResponse)
    (l : List (String × String))
    (h : ∀ name content, isAnalysisFailure (an name content) = true) :
    analyzeLoop an l = ([], 0, 0) := by
  induction l with
  | nil => rfl
  | cons p rest ih =>
    obtain ⟨name, content⟩ := p
    have hp := h name content
    cases ha : an name content with
    | apiError m => simp [analyzeLoop, ha, ih]
    | output t =>
      cases t with
      | unparseable => simp [analyzeLoop, ha, ih]
      | parsedNonObject => simp [analyzeLoop, ha, ih]
      | parsedIssues issues => rw [ha] at hp; simp [isAnalysisFailure] at hp

/-- C1 (amended): if the fetched changed-file list is empty, the pipeline
raises and the job transitions to failed with the error detail of tasks.py
line 49; it does not produce an empty Review Result and never reaches
completed. -/
theorem c1_empty_list_fails (key : String) (fetch : String → Except String String)
    (llm : String → String → LLMResponse) (t : CodeReviewTask) :
    analyze_github_pr ⟨key, .ok [], fetch, llm⟩ (some t) =
      (some {t with status := "failed", error_message := some "No files found in PR"},
       .error "No files found in PR") := by
  cases t
  rfl

/-- C1 counterexample: for a job whose source-provider file list is empty,
the run leaves the record failed with a nonempty error, not completed with
an empty Review Result. -/
theorem c1_counterexample :
    analyze_github_pr envEmptyList (some samplePending) =
      (some ⟨"t1", "https://github.com/o/r", "1", "failed", none,
             some "No files found in PR"⟩,
       .error "No files found in PR") ∧
    (analyze_github_pr envEmptyList (some samplePending)).1.map
      (fun t => t.status) ≠ some "completed" := by
  exact ⟨rfl, by decide⟩

/-- C2: for every job where the analysis fails for every fetched file (at
least one file was fetched), the all-failed escalation of spec 4.4 step 5
raises the aggregate NoFilesAnalyzed detail and the job transitions to
failed with that non-empty error detail; it never reaches completed with
an empty result. -/
theorem c2_all_failed_fails (env : PipelineEnv) (t : CodeReviewTask)
    (prf : List PRFile) (conts : List (String × String))
    (h1 : env.pr_files = .ok prf) (h2 : prf.isEmpty = false)
    (h3 : env.openai_api_key ≠ "")
    (h4 : fetchContents prf env.fetch = .ok conts)
    (h5 : conts.isEmpty = false)
    (h6 : ∀ name content, isAnalysisFailure (env.llm name content) = true) :
    analyze_github_pr env (some t) =
      (some {t with status := "failed", error_message := some "NoFilesAnalyzed: analysis failed for every file"},
       .error "NoFilesAnalyzed: analysis failed for every file") := by
  cases t
  simp [analyze_github_pr, runFetched, markFailed, h1, h2, h3, h4, h5,
        analyze_pr, analyzeLoop_all_fail env.llm conts h6]

/-- C2 witness: the two-file scenario of the claim, with the fetch
succeeding and the analysis failing on both files, ends failed with the
non-empty aggregate detail. -/
theorem c2_all_failed_fails_witness :
    envAllAnalysisFail.pr_files = .ok [⟨"a.py", "", ""⟩, ⟨"b.py", "", ""⟩] ∧
    ([(⟨"a.py", "", ""⟩ : PRFile), ⟨"b.py", "", ""⟩].isEmpty = false) ∧
    envAllAnalysisFail.openai_api_key ≠ "" ∧
    fetchContents [⟨"a.py", "", ""⟩, ⟨"b.py", "", ""⟩] envAllAnalysisFail.fetch =
      .ok [("a.py", "x"), ("b.py", "x")] ∧
    ([("a.py", "x"), ("b.py", "x")].isEmpty = false) ∧
    analyze_github_pr envAllAnalysisFail (some samplePending) =
      (some {samplePending with status := "failed", error_message := some "NoFilesAnalyzed: analysis failed for every file"},
       .error "NoFilesAnalyzed: analysis failed for every file") :=
  ⟨rfl, rfl, by decide, rfl, rfl,
   c2_all_failed_fails envAllAnalysisFail samplePending
     [⟨"a.py", "", ""⟩, ⟨"b.py", "", ""⟩] [("a.py", "x"), ("b.py", "x")]
     rfl rfl (by decide) rfl rfl (fun _ _ => rfl)⟩

/-- C3 (amended): a single file content-fetch failure is fatal to the
pipeline: the fetch loop aborts with that error and the job transitions to
failed carrying it, so the three-file scenario of the claim ends failed
rather than completed with reviews for files 1 and 3. -/
theorem c3_fetch_failure_fatal (env : PipelineEnv) (t : CodeReviewTask)
    (prf : List PRFile) (msg : String)
    (h1 : env.pr_files = .ok prf) (h2 : prf.isEmpty = false)
    (h3 : fetchContents prf env.fetch = .error msg) :
    analyze_github_pr env (some t) =
      (some {t with status := "failed", error_message := some msg}, .error msg) := by
  cases t
  simp [analyze_github_pr, runFetched, markFailed, h1, h2, h3]

/-- C3 witness: three code files where only the fetch of the second
raises; the job ends failed with that fetch error. -/
theorem c3_fetch_failure_fatal_witness :
    envFetchFail.pr_files =
      .ok [⟨"a.py", "", ""⟩, ⟨"b.py", "", ""⟩, ⟨"c.py", "", ""⟩] ∧
    ([(⟨"a.py", "", ""⟩ : PRFile), ⟨"b.py", "", ""⟩, ⟨"c.py", "", ""⟩].isEmpty = false) ∧
    fetchContents [⟨"a.py", "", ""⟩, ⟨"b.py", "", ""⟩, ⟨"c.py", "", ""⟩]
      envFetchFail.fetch = .error "boom" ∧
    analyze_github_pr envFetchFail (some samplePending) =
      (some {samplePending with status := "failed", error_message := some "boom"},
       .error "boom") :=
  ⟨rfl, rfl, rfl,
   c3_fetch_failure_fatal envFetchFail samplePending
     [⟨"a.py", "", ""⟩, ⟨"b.py", "", ""⟩, ⟨"c.py", "", ""⟩] "boom" rfl rfl rfl⟩

/-- C3 counterexample: in the exact scenario of the claim (three code
files, the content fetch of file 2 fails, analysis fails for none) the job
ends failed, not completed with per-file reviews for files 1 and 3. -/
theorem c3_counterexample :
    analyze_github_pr envFetchFail (some samplePending) =
      (some ⟨"t1", "https://github.com/o/r", "1", "failed", none, some "boom"⟩,
       .error "boom") ∧
    (analyze_github_pr envFetchFail (some samplePending)).1.map
      (fun t => t.status) ≠ some "completed" := by
  exact ⟨rfl, by decide⟩

/-- C4 code-bug demonstration: a run that completes produces a non-empty
Review Result but leaves the persisted result column empty, because
tasks.py line 73 assigns the JSON text to the unmapped attribute named
results while the declared column is result (models.py line 22). The
claim requires a completed record to carry a non-empty stored result. -/
theorem c4_code_bug :
    (analyze_github_pr envOneIssue (some samplePending)).1.map (fun t => t.status) =
      some "completed" ∧
    (analyze_github_pr envOneIssue (some samplePending)).1.map (fun t => t.result) =
      some none ∧
    (analyze_github_pr envOneIssue (some samplePending)).2 =
      .ok ⟨[⟨"a.py", [⟨"bug", 3, "d", "s"⟩]⟩], ⟨1, 1, 1⟩⟩ := by
  exact ⟨rfl, rfl, rfl⟩

/-- C5 code-bug demonstration: a submission whose repo URL is not a
GitHub endpoint is rejected with no job record created, but the
HTTPException 400 raised by validation is caught by the catch-all except
of main.py lines 116-118 and re-raised as a 500 — a server-error response,
not a client-error rejection. -/
theorem c5_code_bug :
    analyze_pr_endpoint "https://gitlab.com/o/r" "1" "t9" [] =
      (.error ⟨500, "400: Invalid GitHub repository URL"⟩, []) := by
  rfl

/-- C6 (amended): terminal states are not protected: a run first resets
the record to processing unconditionally and re-executes, so its outcome
is independent of the prior status and a terminal status gets overwritten
by whatever the re-run produces. -/
theorem c6_rerun_ignores_status (env : PipelineEnv) (t : CodeReviewTask)
    (s1 s2 : String) :
    analyze_github_pr env (some {t with status := s1}) =
      analyze_github_pr env (some {t with status := s2}) := by
  cases t
  rfl

/-- C6 counterexample: re-running the pipeline on an already completed job
while the file listing now fails moves the record out of the terminal
completed state into failed, so re-invocation is not a status-preserving
no-op. -/
theorem c6_counterexample :
    completedTask.status = "completed" ∧
    analyze_github_pr envListError (some completedTask) =
      (some {completedTask with status := "failed", error_message := some "rate limited"},
       .error "rate limited") ∧
    (analyze_github_pr envListError (some completedTask)).1.map (fun t => t.status) ≠
      some "completed" := by
  exact ⟨rfl, rfl, by decide⟩

/-- C7: the non-code suffix filter is applied before any content
retrieval — the fetch step consults the oracle exactly on the filtered
name list — and on the changed files a.py, README.md, b.ts, data.yaml the
fetched set is exactly a.py and b.ts. -/
theorem c7_filter_before_fetch :
    (∀ (prf : List PRFile) (fetch : String → Except String String),
        fetchContents prf fetch = fetchByName fetch (filesToFetch prf)) ∧
    filesToFetch [⟨"a.py", "", ""⟩, ⟨"README.md", "", ""⟩, ⟨"b.ts", "", ""⟩,
                  ⟨"data.yaml", "", ""⟩] = ["a.py", "b.ts"] := by
  refine ⟨fun prf fetch => ?_, by decide⟩
  simpa [fetchContents, filesToFetch] using fetchLoop_eq_fetchByName fetch (prf.take 10)

/-- C9 (amended): a provider error makes review_pr_files omit the file
from the per-file reviews, and output that fails to parse as the expected
structure is not treated identically in all cases: output that is not
valid JSON makes analyze_code return an empty issues object, so the file
is kept with an empty issues list, while output that parses as JSON but
not as an object is omitted like a provider error (the extraction at
ai_reviewer.py line 111 raises AttributeError). None of these aborts the
run. -/
theorem c9_parse_vs_provider (f : PRFile) (msg : String)
    (h1 : isNonCodeSuffix f.filename = false) (h2 : f.patch ≠ "") :
    review_pr_files [f] (fun _ => .apiError msg) = ⟨[], ⟨0, 0, 0⟩⟩ ∧
    review_pr_files [f] (fun _ => .output .parsedNonObject) = ⟨[], ⟨0, 0, 0⟩⟩ ∧
    review_pr_files [f] (fun _ => .output .unparseable) =
      ⟨[⟨f.filename, []⟩], ⟨1, 0, 0⟩⟩ := by
  refine ⟨?_, ?_, ?_⟩ <;> simp [review_pr_files, reviewLoop, h1, h2, analyze_code]

/-- C9 witness: a code file with a nonempty patch realizes all three
behaviours of the amended claim. -/
theorem c9_parse_vs_provider_witness :
    isNonCodeSuffix sampleCodeFile.filename = false ∧
    sampleCodeFile.patch ≠ "" ∧
    (review_pr_files [sampleCodeFile] (fun _ => .apiError "boom") = ⟨[], ⟨0, 0, 0⟩⟩ ∧
     review_pr_files [sampleCodeFile] (fun _ => .output .parsedNonObject) =
       ⟨[], ⟨0, 0, 0⟩⟩ ∧
     review_pr_files [sampleCodeFile] (fun _ => .output .unparseable) =
       ⟨[⟨"a.py", []⟩], ⟨1, 0, 0⟩⟩) :=
  ⟨rfl, by decide, c9_parse_vs_provider sampleCodeFile "boom" rfl (by decide)⟩

/-- C9 counterexample: a file whose analysis output fails to parse is not
omitted from the per-file reviews: it appears with an empty issues list,
unlike a provider error. -/
theorem c9_counterexample :
    review_pr_files [sampleCodeFile] (fun _ => .output .unparseable) =
      ⟨[⟨"a.py", []⟩], ⟨1, 0, 0⟩⟩ ∧
    (review_pr_files [sampleCodeFile] (fun _ => .output .unparseable)).files ≠ [] := by
  exact ⟨rfl, by decide⟩

/-- C10: the worker considers only the first 10 entries of the
changed-file list: for every pull request with more than 10 changed files
the whole run — content fetch, analysis and the final Review Result — is
unchanged by dropping every file after position 10. -/
theorem c10_first_ten_only (key : String) (l : List PRFile)
    (fetch : String → Except String String) (llm : String → String → LLMResponse)
    (db : Option CodeReviewTask) (h : 10 < l.length) :
    analyze_github_pr ⟨key, .ok l, fetch, llm⟩ db =
      analyze_github_pr ⟨key, .ok (l.take 10), fetch, llm⟩ db := by
  have hne : l.isEmpty = false := by
    cases l with
    | nil => simp at h
    | cons a t => rfl
  have hne2 : (l.take 10).isEmpty = false := by
    cases l with
    | nil => simp at h
    | cons a t => rfl
  simp [analyze_github_pr, runFetched, fetchContents, hne, hne2, List.take_take]

/-- C10 witness: with eleven changed files the run equals the run on the
first ten. -/
theorem c10_first_ten_only_witness :
    10 < elevenFiles.length ∧
    analyze_github_pr envEleven none = analyze_github_pr envElevenTaken none :=
  ⟨by decide,
   c10_first_ten_only "k" elevenFiles (fun _ => .ok "c")
     (fun _ _ => .output (.parsedIssues [])) none (by decide)⟩

end PotpaiAI




